import Mathlib

/-!
Verification of the personal-income-tax calculator of the TaxfixNG backend.

The embedded code lives in `src/app/features/profile/profile_router.py`:

* `compute_tax_liability` — the four-stage pipeline: total income,
  eligible deductions (with the period-scaled rent-relief cap),
  chargeable income, and the inline six-band progressive walk;
* `progressive_tax` — the band-walk helper defined inside the
  `estimate_tax` endpoint;
* `estimate_tax` — the pure calculation of the forecast endpoint
  (gross tax, total income, total deductions, estimated tax due,
  with the monthly ×12 scaling applied at the end).

Monetary amounts are modelled as exact rationals (`ℚ`); the Python
source uses ordinary floats, and every constant in it
(0.15, 0.18, 0.21, 0.23, 0.25, 0.20, 500000/12) is carried here as the
exact rational it denotes.
-/

inductive Period where
  | ANNUALLY
  | MONTHLY
deriving DecidableEq, Repr

/-- The flat set of numeric fields (plus the period flag) consumed by the
tax endpoints, mirroring the fields of `profile_schema.ProfileBase` /
`profile_schema.Forecast` that the router reads (defaults all 0,
period defaulting to ANNUALLY, as in the schema). The schema field
`voluntary_pension_contribution` is present on the input but is never
read by the calculation. -/
structure TaxInput where
  employment_income : ℚ := 0
  business_income : ℚ := 0
  other_income : ℚ := 0
  chargeable_gains : ℚ := 0
  losses_allowed : ℚ := 0
  capital_allowances : ℚ := 0
  national_housing_fund : ℚ := 0
  National_health_insurance_scheme : ℚ := 0
  pension_contribution : ℚ := 0
  voluntary_pension_contribution : ℚ := 0
  mortgage_interest : ℚ := 0
  life_insurance_premium : ℚ := 0
  house_rent : ℚ := 0
  period : Period := Period.ANNUALLY
deriving DecidableEq

/-- Step 1 of `compute_tax_liability`: total income, clamped at 0
(`if total_income < 0: total_income = 0`). -/
def total_income (i : TaxInput) : ℚ :=
  let t := i.employment_income + i.business_income + i.other_income +
    i.chargeable_gains - i.losses_allowed - i.capital_allowances
  if t < 0 then 0 else t

/-- Step 2 of `compute_tax_liability`: rent relief,
`min(0.20 * house_rent, 500000/12)` for MONTHLY and
`min(0.20 * house_rent, 500000)` otherwise. -/
def rent_relief (i : TaxInput) : ℚ :=
  if i.period = Period.MONTHLY then
    min ((20 / 100) * i.house_rent) (500000 / 12)
  else
    min ((20 / 100) * i.house_rent) 500000

/-- Step 2 of `compute_tax_liability` continued: the sum of the five
uncapped deduction fields plus the capped rent relief. -/
def eligible_deductions (i : TaxInput) : ℚ :=
  i.national_housing_fund +
  i.National_health_insurance_scheme +
  i.pension_contribution +
  i.mortgage_interest +
  i.life_insurance_premium +
  rent_relief i

/-- Step 3 of `compute_tax_liability`:
`chargeable_income = max(total_income - eligible_deductions, 0)`. -/
def chargeable_income (i : TaxInput) : ℚ :=
  max (total_income i - eligible_deductions i) 0

/-- `compute_tax_liability` of the source: the staged pipeline followed by
the inline six-band walk with early returns (modelled as nested
if-then-else). Returns the unscaled tax; the ×12 monthly annualisation is
applied by the callers, as in the source. -/
def compute_tax_liability (i : TaxInput) : ℚ :=
  let tax : ℚ := 0
  let remaining := chargeable_income i
  let band := min remaining 800000
  let tax := tax + band * 0
  let remaining := remaining - band
  if remaining ≤ 0 then tax else
  let band := min remaining 2200000
  let tax := tax + band * (15 / 100)
  let remaining := remaining - band
  if remaining ≤ 0 then tax else
  let band := min remaining 9000000
  let tax := tax + band * (18 / 100)
  let remaining := remaining - band
  if remaining ≤ 0 then tax else
  let band := min remaining 13000000
  let tax := tax + band * (21 / 100)
  let remaining := remaining - band
  if remaining ≤ 0 then tax else
  let band := min remaining 25000000
  let tax := tax + band * (23 / 100)
  let remaining := remaining - band
  if remaining ≤ 0 then tax else
  tax + remaining * (25 / 100)

/-- The band walk of `compute_tax_liability` as a function of the
chargeable-income amount alone; `compute_tax_liability` is definitionally
this walk applied to `chargeable_income` (see `compute_tax_liability_eq`). -/
def taxWalk (c : ℚ) : ℚ :=
  let tax : ℚ := 0
  let remaining := c
  let band := min remaining 800000
  let tax := tax + band * 0
  let remaining := remaining - band
  if remaining ≤ 0 then tax else
  let band := min remaining 2200000
  let tax := tax + band * (15 / 100)
  let remaining := remaining - band
  if remaining ≤ 0 then tax else
  let band := min remaining 9000000
  let tax := tax + band * (18 / 100)
  let remaining := remaining - band
  if remaining ≤ 0 then tax else
  let band := min remaining 13000000
  let tax := tax + band * (21 / 100)
  let remaining := remaining - band
  if remaining ≤ 0 then tax else
  let band := min remaining 25000000
  let tax := tax + band * (23 / 100)
  let remaining := remaining - band
  if remaining ≤ 0 then tax else
  tax + remaining * (25 / 100)

/-- The `progressive_tax` helper defined inside the `estimate_tax`
endpoint: identical band schedule, but the amount is first clamped with
`remaining = max(amount, 0)`. -/
def progressive_tax (amount : ℚ) : ℚ :=
  let tax : ℚ := 0
  let remaining := max amount 0
  let band := min remaining 800000
  let tax := tax + band * 0
  let remaining := remaining - band
  if remaining ≤ 0 then tax else
  let band := min remaining 2200000
  let tax := tax + band * (15 / 100)
  let remaining := remaining - band
  if remaining ≤ 0 then tax else
  let band := min remaining 9000000
  let tax := tax + band * (18 / 100)
  let remaining := remaining - band
  if remaining ≤ 0 then tax else
  let band := min remaining 13000000
  let tax := tax + band * (21 / 100)
  let remaining := remaining - band
  if remaining ≤ 0 then tax else
  let band := min remaining 25000000
  let tax := tax + band * (23 / 100)
  let remaining := remaining - band
  if remaining ≤ 0 then tax else
  tax + remaining * (25 / 100)

/-- The structured body returned by the `estimate_tax` endpoint. -/
structure ForecastResult where
  gross_tax_liability : ℚ
  total_income : ℚ
  total_deductions : ℚ
  estimated_tax_due : ℚ
deriving DecidableEq

/-- The pure calculation of the `estimate_tax` endpoint: it calls
`compute_tax_liability`, recomputes total income (with the same clamp),
rent relief and the deduction sum with the same formulas, applies
`progressive_tax` to the total income to get the gross (no-deduction) tax,
and multiplies both taxes by 12 when the period is MONTHLY. -/
def estimate_tax (forecast : TaxInput) : ForecastResult :=
  let estimated_tax := compute_tax_liability forecast
  let ti := forecast.employment_income + forecast.business_income +
    forecast.other_income + forecast.chargeable_gains -
    forecast.losses_allowed - forecast.capital_allowances
  let ti := if ti < 0 then 0 else ti
  let rr :=
    if forecast.period = Period.MONTHLY then
      min ((20 / 100) * forecast.house_rent) (500000 / 12)
    else
      min ((20 / 100) * forecast.house_rent) 500000
  let total_deduction :=
    forecast.national_housing_fund +
    forecast.National_health_insurance_scheme +
    forecast.pension_contribution +
    forecast.mortgage_interest +
    forecast.life_insurance_premium +
    rr
  let prior_estimated_tax := progressive_tax ti
  let estimated_tax :=
    if forecast.period = Period.MONTHLY then estimated_tax * 12 else estimated_tax
  let prior_estimated_tax :=
    if forecast.period = Period.MONTHLY then prior_estimated_tax * 12
    else prior_estimated_tax
  { gross_tax_liability := prior_estimated_tax
    total_income := ti
    total_deductions := total_deduction
    estimated_tax_due := estimated_tax }

/-- The band table exactly as the specification lists it: ordered
widths with their marginal rates; income beyond the table is taxed at
25%. -/
def specBands : List (ℚ × ℚ) :=
  [(800000, 0), (2200000, 15 / 100), (9000000, 18 / 100),
   (13000000, 21 / 100), (25000000, 23 / 100)]

/-- The ordered band walk of the specification: at each band tax
`min(remaining, width)` at the band's rate, subtract the consumed amount,
stop as soon as remaining reaches 0; any amount surviving all finite
bands is taxed entirely at 25%. -/
def specWalkAux : List (ℚ × ℚ) → ℚ → ℚ → ℚ
  | [], remaining, tax => tax + remaining * (25 / 100)
  | (w, r) :: bs, remaining, tax =>
      let amt := min remaining w
      let tax := tax + amt * r
      let remaining := remaining - amt
      if remaining ≤ 0 then tax else specWalkAux bs remaining tax

/-- The specification-side progressive tax on a chargeable-income amount. -/
def specBandWalk (c : ℚ) : ℚ := specWalkAux specBands c 0

theorem compute_tax_liability_eq (i : TaxInput) :
    compute_tax_liability i = taxWalk (chargeable_income i) := rfl

theorem taxWalk_eq_specBandWalk (c : ℚ) : taxWalk c = specBandWalk c := rfl

theorem annually_ne_monthly : Period.ANNUALLY ≠ Period.MONTHLY :=
  fun h => Period.noConfusion h

theorem progressive_tax_def (c : ℚ) : progressive_tax c = taxWalk (max c 0) := rfl

theorem estimate_tax_estimated (i : TaxInput) :
    (estimate_tax i).estimated_tax_due =
      if i.period = Period.MONTHLY then compute_tax_liability i * 12
      else compute_tax_liability i := rfl

theorem estimate_tax_gross (i : TaxInput) :
    (estimate_tax i).gross_tax_liability =
      if i.period = Period.MONTHLY then progressive_tax (total_income i) * 12
      else progressive_tax (total_income i) := rfl

theorem estimate_tax_ti (i : TaxInput) :
    (estimate_tax i).total_income = total_income i := rfl

theorem estimate_tax_td (i : TaxInput) :
    (estimate_tax i).total_deductions =
      i.national_housing_fund + i.National_health_insurance_scheme +
        i.pension_contribution + i.mortgage_interest +
        i.life_insurance_premium + rent_relief i := rfl

theorem total_income_nonneg (i : TaxInput) : 0 ≤ total_income i := by
  unfold total_income
  dsimp only
  split_ifs with h
  · exact le_refl 0
  · linarith

theorem chargeable_income_nonneg (i : TaxInput) : 0 ≤ chargeable_income i :=
  le_max_right _ _

theorem taxWalk_case1 {c : ℚ} (h : c ≤ 800000) : taxWalk c = 0 := by
  simp [taxWalk, min_eq_left h]

theorem taxWalk_case2 {c : ℚ} (h1 : 800000 < c) (h2 : c ≤ 3000000) :
    taxWalk c = (c - 800000) * (15 / 100) := by
  have e1 : min c 800000 = (800000 : ℚ) := min_eq_right (by linarith)
  have e2 : ¬ (c - 800000 ≤ (0 : ℚ)) := by linarith
  have e3 : min (c - 800000) 2200000 = c - 800000 := min_eq_left (by linarith)
  simp [taxWalk, e1, e2, e3]

theorem taxWalk_case3 {c : ℚ} (h1 : 3000000 < c) (h2 : c ≤ 12000000) :
    taxWalk c = 330000 + (c - 3000000) * (18 / 100) := by
  have e1 : min c 800000 = (800000 : ℚ) := min_eq_right (by linarith)
  have e2 : ¬ (c - 800000 ≤ (0 : ℚ)) := by linarith
  have e3 : min (c - 800000) 2200000 = (2200000 : ℚ) := min_eq_right (by linarith)
  have e4 : ¬ (c - 800000 - 2200000 ≤ (0 : ℚ)) := by linarith
  have e5 : min (c - 800000 - 2200000) 9000000 = c - 800000 - 2200000 :=
    min_eq_left (by linarith)
  simp [taxWalk, e1, e2, e3, e4, e5]
  ring

theorem taxWalk_case4 {c : ℚ} (h1 : 12000000 < c) (h2 : c ≤ 25000000) :
    taxWalk c = 1950000 + (c - 12000000) * (21 / 100) := by
  have e1 : min c 800000 = (800000 : ℚ) := min_eq_right (by linarith)
  have e2 : ¬ (c - 800000 ≤ (0 : ℚ)) := by linarith
  have e3 : min (c - 800000) 2200000 = (2200000 : ℚ) := min_eq_right (by linarith)
  have e4 : ¬ (c - 800000 - 2200000 ≤ (0 : ℚ)) := by linarith
  have e5 : min (c - 800000 - 2200000) 9000000 = (9000000 : ℚ) :=
    min_eq_right (by linarith)
  have e6 : ¬ (c - 800000 - 2200000 - 9000000 ≤ (0 : ℚ)) := by linarith
  have e7 : min (c - 800000 - 2200000 - 9000000) 13000000
      = c - 800000 - 2200000 - 9000000 := min_eq_left (by linarith)
  simp [taxWalk, e1, e2, e3, e4, e5, e6, e7]
  ring

theorem taxWalk_case5 {c : ℚ} (h1 : 25000000 < c) (h2 : c ≤ 50000000) :
    taxWalk c = 4680000 + (c - 25000000) * (23 / 100) := by
  have e1 : min c 800000 = (800000 : ℚ) := min_eq_right (by linarith)
  have e2 : ¬ (c - 800000 ≤ (0 : ℚ)) := by linarith
  have e3 : min (c - 800000) 2200000 = (2200000 : ℚ) := min_eq_right (by linarith)
  have e4 : ¬ (c - 800000 - 2200000 ≤ (0 : ℚ)) := by linarith
  have e5 : min (c - 800000 - 2200000) 9000000 = (9000000 : ℚ) :=
    min_eq_right (by linarith)
  have e6 : ¬ (c - 800000 - 2200000 - 9000000 ≤ (0 : ℚ)) := by linarith
  have e7 : min (c - 800000 - 2200000 - 9000000) 13000000 = (13000000 : ℚ) :=
    min_eq_right (by linarith)
  have e8 : ¬ (c - 800000 - 2200000 - 9000000 - 13000000 ≤ (0 : ℚ)) := by linarith
  have e9 : min (c - 800000 - 2200000 - 9000000 - 13000000) 25000000
      = c - 800000 - 2200000 - 9000000 - 13000000 := min_eq_left (by linarith)
  simp [taxWalk, e1, e2, e3, e4, e5, e6, e7, e8, e9]
  ring

theorem taxWalk_case6 {c : ℚ} (h1 : 50000000 < c) :
    taxWalk c = 10430000 + (c - 50000000) * (25 / 100) := by
  have e1 : min c 800000 = (800000 : ℚ) := min_eq_right (by linarith)
  have e2 : ¬ (c - 800000 ≤ (0 : ℚ)) := by linarith
  have e3 : min (c - 800000) 2200000 = (2200000 : ℚ) := min_eq_right (by linarith)
  have e4 : ¬ (c - 800000 - 2200000 ≤ (0 : ℚ)) := by linarith
  have e5 : min (c - 800000 - 2200000) 9000000 = (9000000 : ℚ) :=
    min_eq_right (by linarith)
  have e6 : ¬ (c - 800000 - 2200000 - 9000000 ≤ (0 : ℚ)) := by linarith
  have e7 : min (c - 800000 - 2200000 - 9000000) 13000000 = (13000000 : ℚ) :=
    min_eq_right (by linarith)
  have e8 : ¬ (c - 800000 - 2200000 - 9000000 - 13000000 ≤ (0 : ℚ)) := by linarith
  have e9 : min (c - 800000 - 2200000 - 9000000 - 13000000) 25000000
      = (25000000 : ℚ) := min_eq_right (by linarith)
  have e10 : ¬ (c - 800000 - 2200000 - 9000000 - 13000000 - 25000000 ≤ (0 : ℚ)) := by
    linarith
  simp [taxWalk, e1, e2, e3, e4, e5, e6, e7, e8, e9, e10]
  ring

/-- The band walk written as a sum of hinge terms: each summand is (rate
increment at a cumulative boundary) times the income above that boundary.
Used to prove monotonicity. -/
def taxClosed (c : ℚ) : ℚ :=
  (15 / 100) * max (c - 800000) 0 + (3 / 100) * max (c - 3000000) 0 +
  (3 / 100) * max (c - 12000000) 0 + (2 / 100) * max (c - 25000000) 0 +
  (2 / 100) * max (c - 50000000) 0

theorem taxWalk_eq_closed (c : ℚ) : taxWalk c = taxClosed c := by
  unfold taxClosed
  rcases le_or_lt c 800000 with h | h1
  · rw [taxWalk_case1 h, max_eq_right (by linarith), max_eq_right (by linarith),
      max_eq_right (by linarith), max_eq_right (by linarith),
      max_eq_right (by linarith)]
    ring
  · rcases le_or_lt c 3000000 with h2 | h2
    · rw [taxWalk_case2 h1 h2, max_eq_left (by linarith), max_eq_right (by linarith),
        max_eq_right (by linarith), max_eq_right (by linarith),
        max_eq_right (by linarith)]
      ring
    · rcases le_or_lt c 12000000 with h3 | h3
      · rw [taxWalk_case3 h2 h3, max_eq_left (by linarith), max_eq_left (by linarith),
          max_eq_right (by linarith), max_eq_right (by linarith),
          max_eq_right (by linarith)]
        ring
      · rcases le_or_lt c 25000000 with h4 | h4
        · rw [taxWalk_case4 h3 h4, max_eq_left (by linarith),
            max_eq_left (by linarith), max_eq_left (by linarith),
            max_eq_right (by linarith), max_eq_right (by linarith)]
          ring
        · rcases le_or_lt c 50000000 with h5 | h5
          · rw [taxWalk_case5 h4 h5, max_eq_left (by linarith),
              max_eq_left (by linarith), max_eq_left (by linarith),
              max_eq_left (by linarith), max_eq_right (by linarith)]
            ring
          · rw [taxWalk_case6 h5, max_eq_left (by linarith),
              max_eq_left (by linarith), max_eq_left (by linarith),
              max_eq_left (by linarith), max_eq_left (by linarith)]
            ring

theorem taxWalk_mono {a b : ℚ} (h : a ≤ b) : taxWalk a ≤ taxWalk b := by
  rw [taxWalk_eq_closed, taxWalk_eq_closed]
  unfold taxClosed
  have m1 : max (a - 800000) 0 ≤ max (b - 800000) 0 :=
    max_le_max (by linarith) le_rfl
  have m2 : max (a - 3000000) 0 ≤ max (b - 3000000) 0 :=
    max_le_max (by linarith) le_rfl
  have m3 : max (a - 12000000) 0 ≤ max (b - 12000000) 0 :=
    max_le_max (by linarith) le_rfl
  have m4 : max (a - 25000000) 0 ≤ max (b - 25000000) 0 :=
    max_le_max (by linarith) le_rfl
  have m5 : max (a - 50000000) 0 ≤ max (b - 50000000) 0 :=
    max_le_max (by linarith) le_rfl
  linarith

theorem compute_mono_parts {i j : TaxInput}
    (ht : total_income i ≤ total_income j)
    (he : eligible_deductions j ≤ eligible_deductions i) :
    compute_tax_liability i ≤ compute_tax_liability j := by
  rw [compute_tax_liability_eq, compute_tax_liability_eq]
  apply taxWalk_mono
  exact max_le_max (by linarith) le_rfl

/-- All monetary fields of the input are non-negative. -/
def NonnegInput (i : TaxInput) : Prop :=
  0 ≤ i.employment_income ∧ 0 ≤ i.business_income ∧ 0 ≤ i.other_income ∧
  0 ≤ i.chargeable_gains ∧ 0 ≤ i.losses_allowed ∧ 0 ≤ i.capital_allowances ∧
  0 ≤ i.national_housing_fund ∧ 0 ≤ i.National_health_insurance_scheme ∧
  0 ≤ i.pension_contribution ∧ 0 ≤ i.voluntary_pension_contribution ∧
  0 ≤ i.mortgage_interest ∧ 0 ≤ i.life_insurance_premium ∧ 0 ≤ i.house_rent

/-- The all-defaults input: every monetary field 0, ANNUALLY period. -/
def zeroInput : TaxInput := {}

/-- The spec's worked scenario: employment income 15,000,000, pension
contribution 1,000,000, house rent 3,000,000, ANNUAL period. -/
def exampleInput : TaxInput :=
  { employment_income := 15000000, pension_contribution := 1000000,
    house_rent := 3000000 }

/-- A MONTHLY-period input used to witness the monthly-scaling claim. -/
def monthlyInput : TaxInput :=
  { employment_income := 1000000, period := Period.MONTHLY }

/-- An input with a negative deduction field: employment income 1,000,000
and pension contribution −1,000,000. -/
def negativeDeductionInput : TaxInput :=
  { employment_income := 1000000, pension_contribution := -1000000 }

/-- C1: for every input whose chargeable income is non-negative, the tax
computed by `compute_tax_liability` equals the ordered walk over the six
bands of the specification's table (widths 800,000; 2,200,000; 9,000,000;
13,000,000; 25,000,000 at 0%, 15%, 18%, 21%, 23%): each band taxes
`min(remaining, width)`, the consumed amount is subtracted, the walk stops
as soon as remaining reaches 0, and income surviving all finite bands
(above 50,000,000 cumulative) is taxed entirely at 25%. -/
theorem C1_compute_is_spec_band_walk (i : TaxInput)
    (h : 0 ≤ chargeable_income i) :
    compute_tax_liability i = specBandWalk (chargeable_income i) := rfl

theorem C1_compute_is_spec_band_walk_w :
    0 ≤ chargeable_income exampleInput ∧
    compute_tax_liability exampleInput = specBandWalk (chargeable_income exampleInput) :=
  ⟨le_max_right _ _,
   C1_compute_is_spec_band_walk exampleInput (le_max_right _ _)⟩

/-- C2: on a MONTHLY input the forecast endpoint multiplies both the tax
due and the gross no-deduction tax by 12 only after the band walk: the
returned `estimated_tax_due` is 12 times the annual band walk applied
directly to the monthly chargeable income (computed with the monthly
rent-relief cap 500000/12), and `gross_tax_liability` is 12 times the walk
on the monthly total income; the monthly figures are never scaled before
banding. -/
theorem C2_monthly_scales_after_banding (i : TaxInput)
    (h : i.period = Period.MONTHLY) :
    (estimate_tax i).estimated_tax_due = 12 * specBandWalk (chargeable_income i) ∧
    (estimate_tax i).gross_tax_liability = 12 * specBandWalk (total_income i) ∧
    rent_relief i = min ((20 / 100) * i.house_rent) (500000 / 12) := by
  have hg : progressive_tax (total_income i) = specBandWalk (total_income i) := by
    rw [progressive_tax_def, max_eq_left (total_income_nonneg i),
      taxWalk_eq_specBandWalk]
  refine ⟨?_, ?_, ?_⟩
  · rw [estimate_tax_estimated, if_pos h, compute_tax_liability_eq,
      taxWalk_eq_specBandWalk, mul_comm]
  · rw [estimate_tax_gross, if_pos h, hg, mul_comm]
  · simp [rent_relief, h]

theorem C2_monthly_scales_after_banding_w :
    (estimate_tax monthlyInput).estimated_tax_due =
      12 * specBandWalk (chargeable_income monthlyInput) ∧
    (estimate_tax monthlyInput).gross_tax_liability =
      12 * specBandWalk (total_income monthlyInput) ∧
    rent_relief monthlyInput =
      min ((20 / 100) * monthlyInput.house_rent) (500000 / 12) :=
  C2_monthly_scales_after_banding monthlyInput rfl

/-- C3: rent relief is `min(0.20 × house_rent, cap)` with cap 500,000 for
ANNUAL and 500,000/12 for MONTHLY, the rent itself never annualized before
the cap; concretely, ANNUAL rent 10,000,000 gives relief exactly 500,000
and MONTHLY rent 1,000,000 gives exactly 500,000/12. -/
theorem C3_rent_relief_formula :
    (∀ i : TaxInput, rent_relief i =
      min ((20 / 100) * i.house_rent)
        (if i.period = Period.MONTHLY then 500000 / 12 else 500000)) ∧
    rent_relief { house_rent := 10000000 } = 500000 ∧
    rent_relief { house_rent := 1000000, period := Period.MONTHLY } = 500000 / 12 := by
  refine ⟨fun i => ?_, ?_, ?_⟩
  · unfold rent_relief
    split_ifs with h <;> rfl
  · norm_num [rent_relief, min_def, annually_ne_monthly]
  · norm_num [rent_relief, min_def]

/-- C4: the spec's worked scenario (employment income 15,000,000, pension
contribution 1,000,000, house rent 3,000,000, ANNUAL): rent relief exactly
500,000, eligible deductions exactly 1,500,000, chargeable income exactly
13,500,000, tax due exactly 2,265,000. -/
theorem C4_worked_scenario :
    rent_relief exampleInput = 500000 ∧
    eligible_deductions exampleInput = 1500000 ∧
    chargeable_income exampleInput = 13500000 ∧
    compute_tax_liability exampleInput = 2265000 := by
  have h1 : rent_relief exampleInput = 500000 := by
    norm_num [exampleInput, rent_relief, min_def, annually_ne_monthly]
  have h2 : eligible_deductions exampleInput = 1500000 := by
    unfold eligible_deductions
    rw [h1]
    norm_num [exampleInput]
  have h3 : chargeable_income exampleInput = 13500000 := by
    unfold chargeable_income
    rw [h2]
    unfold total_income
    norm_num [exampleInput, max_def]
  have h4 : compute_tax_liability exampleInput = 2265000 := by
    rw [compute_tax_liability_eq, h3,
      taxWalk_case4 (by norm_num) (by norm_num)]
    norm_num
  exact ⟨h1, h2, h3, h4⟩

/-- C5: with all monetary fields non-negative, increasing any single income
field never decreases the computed tax, and increasing any single deduction
field never increases it (all other fields held fixed). -/
theorem C5_monotonicity (i : TaxInput) (hn : NonnegInput i) (d : ℚ)
    (hd : 0 ≤ d) :
    compute_tax_liability i ≤
      compute_tax_liability { i with employment_income := i.employment_income + d } ∧
    compute_tax_liability i ≤
      compute_tax_liability { i with business_income := i.business_income + d } ∧
    compute_tax_liability i ≤
      compute_tax_liability { i with other_income := i.other_income + d } ∧
    compute_tax_liability i ≤
      compute_tax_liability { i with chargeable_gains := i.chargeable_gains + d } ∧
    compute_tax_liability { i with national_housing_fund := i.national_housing_fund + d } ≤
      compute_tax_liability i ∧
    compute_tax_liability
        { i with National_health_insurance_scheme := i.National_health_insurance_scheme + d } ≤
      compute_tax_liability i ∧
    compute_tax_liability { i with pension_contribution := i.pension_contribution + d } ≤
      compute_tax_liability i ∧
    compute_tax_liability { i with mortgage_interest := i.mortgage_interest + d } ≤
      compute_tax_liability i ∧
    compute_tax_liability { i with life_insurance_premium := i.life_insurance_premium + d } ≤
      compute_tax_liability i ∧
    compute_tax_liability { i with house_rent := i.house_rent + d } ≤
      compute_tax_liability i := by
  refine ⟨?_, ?_, ?_, ?_, ?_, ?_, ?_, ?_, ?_, ?_⟩
  · refine compute_mono_parts ?_ (le_of_eq rfl)
    unfold total_income
    dsimp only
    split_ifs <;> linarith
  · refine compute_mono_parts ?_ (le_of_eq rfl)
    unfold total_income
    dsimp only
    split_ifs <;> linarith
  · refine compute_mono_parts ?_ (le_of_eq rfl)
    unfold total_income
    dsimp only
    split_ifs <;> linarith
  · refine compute_mono_parts ?_ (le_of_eq rfl)
    unfold total_income
    dsimp only
    split_ifs <;> linarith
  · refine compute_mono_parts (le_of_eq rfl) ?_
    have hr : rent_relief { i with national_housing_fund := i.national_housing_fund + d } =
        rent_relief i := rfl
    unfold eligible_deductions
    rw [hr]
    dsimp only
    linarith
  · refine compute_mono_parts (le_of_eq rfl) ?_
    have hr : rent_relief
        { i with National_health_insurance_scheme := i.National_health_insurance_scheme + d } =
        rent_relief i := rfl
    unfold eligible_deductions
    rw [hr]
    dsimp only
    linarith
  · refine compute_mono_parts (le_of_eq rfl) ?_
    have hr : rent_relief { i with pension_contribution := i.pension_contribution + d } =
        rent_relief i := rfl
    unfold eligible_deductions
    rw [hr]
    dsimp only
    linarith
  · refine compute_mono_parts (le_of_eq rfl) ?_
    have hr : rent_relief { i with mortgage_interest := i.mortgage_interest + d } =
        rent_relief i := rfl
    unfold eligible_deductions
    rw [hr]
    dsimp only
    linarith
  · refine compute_mono_parts (le_of_eq rfl) ?_
    have hr : rent_relief { i with life_insurance_premium := i.life_insurance_premium + d } =
        rent_relief i := rfl
    unfold eligible_deductions
    rw [hr]
    dsimp only
    linarith
  · refine compute_mono_parts (le_of_eq rfl) ?_
    unfold eligible_deductions rent_relief
    dsimp only
    split_ifs with h
    · gcongr
      linarith
    · gcongr
      linarith

theorem C5_monotonicity_w :
    compute_tax_liability zeroInput ≤
      compute_tax_liability
        { zeroInput with employment_income := zeroInput.employment_income + 1000000 } :=
  (C5_monotonicity zeroInput
    (by refine ⟨?_, ?_, ?_, ?_, ?_, ?_, ?_, ?_, ?_, ?_, ?_, ?_, ?_⟩ <;> norm_num [zeroInput])
    1000000 (by norm_num)).1

/-- C6: the forecast's `gross_tax_liability` is the band walk applied
directly to the clamped total income with no deductions subtracted,
multiplied by 12 exactly when the period is MONTHLY, and the same scaling
is applied to `estimated_tax_due`. -/
theorem C6_gross_tax_no_deductions (i : TaxInput) :
    (estimate_tax i).gross_tax_liability =
      (if i.period = Period.MONTHLY then 12 * specBandWalk (total_income i)
       else specBandWalk (total_income i)) ∧
    (estimate_tax i).total_income = total_income i ∧
    (estimate_tax i).estimated_tax_due =
      (if i.period = Period.MONTHLY then 12 * compute_tax_liability i
       else compute_tax_liability i) := by
  have hg : progressive_tax (total_income i) = specBandWalk (total_income i) := by
    rw [progressive_tax_def, max_eq_left (total_income_nonneg i),
      taxWalk_eq_specBandWalk]
  refine ⟨?_, rfl, ?_⟩
  · rw [estimate_tax_gross, hg]
    split_ifs <;> ring
  · rw [estimate_tax_estimated]
    split_ifs <;> ring

/-- C7: the forecast's `total_deductions` is exactly the six-summand
deduction total (five uncapped fields plus the capped rent relief), is
never period-scaled, and no other input field — in particular
`voluntary_pension_contribution` — contributes to it. -/
theorem C7_total_deductions_exact (i : TaxInput) :
    (estimate_tax i).total_deductions =
      i.national_housing_fund + i.National_health_insurance_scheme +
        i.pension_contribution + i.mortgage_interest +
        i.life_insurance_premium + rent_relief i ∧
    (∀ v : ℚ,
      (estimate_tax { i with voluntary_pension_contribution := v }).total_deductions =
        (estimate_tax i).total_deductions) :=
  ⟨rfl, fun _ => rfl⟩

/-- C8: the calculation is total — every input yields a value — and the
all-zero input yields tax due exactly 0 and chargeable income exactly 0. -/
theorem C8_total_and_zero_input :
    (∀ i : TaxInput, ∃ t : ℚ, compute_tax_liability i = t) ∧
    compute_tax_liability zeroInput = 0 ∧
    chargeable_income zeroInput = 0 := by
  have h0 : chargeable_income zeroInput = 0 := by
    norm_num [chargeable_income, total_income, eligible_deductions,
      rent_relief, zeroInput, min_def, max_def, annually_ne_monthly]
  refine ⟨fun i => ⟨compute_tax_liability i, rfl⟩, ?_, h0⟩
  rw [compute_tax_liability_eq, h0, taxWalk_case1 (by norm_num)]

/-- C9: negative monetary fields raise no error and are not clamped: every
field participates unmodified in the total-income sum and the
eligible-deductions sum, so a negative deduction lowers the deduction total
and raises the tax exactly as the arithmetic dictates — with employment
income 1,000,000 and pension contribution −1,000,000 the deduction total is
−1,000,000, chargeable income 2,000,000 and the tax 180,000, against 30,000
when the pension field is 0. -/
theorem C9_negative_fields_pass_through :
    (∀ i : TaxInput, eligible_deductions i =
      i.national_housing_fund + i.National_health_insurance_scheme +
        i.pension_contribution + i.mortgage_interest +
        i.life_insurance_premium + rent_relief i) ∧
    (∀ i : TaxInput, total_income i =
      (if i.employment_income + i.business_income + i.other_income +
          i.chargeable_gains - i.losses_allowed - i.capital_allowances < 0
       then 0
       else i.employment_income + i.business_income + i.other_income +
          i.chargeable_gains - i.losses_allowed - i.capital_allowances)) ∧
    eligible_deductions negativeDeductionInput = -1000000 ∧
    chargeable_income negativeDeductionInput = 2000000 ∧
    compute_tax_liability negativeDeductionInput = 180000 ∧
    compute_tax_liability { employment_income := 1000000 } = 30000 := by
  have hd : eligible_deductions negativeDeductionInput = -1000000 := by
    norm_num [eligible_deductions, rent_relief, negativeDeductionInput,
      min_def, annually_ne_monthly]
  have hc : chargeable_income negativeDeductionInput = 2000000 := by
    unfold chargeable_income
    rw [hd]
    unfold total_income
    norm_num [negativeDeductionInput, max_def]
  have hb : chargeable_income ({ employment_income := 1000000 } : TaxInput) = 1000000 := by
    norm_num [chargeable_income, total_income, eligible_deductions,
      rent_relief, min_def, max_def, annually_ne_monthly]
  refine ⟨fun i => rfl, fun i => rfl, hd, hc, ?_, ?_⟩
  · rw [compute_tax_liability_eq, hc,
      taxWalk_case2 (by norm_num) (by norm_num)]
    norm_num
  · rw [compute_tax_liability_eq, hb,
      taxWalk_case2 (by norm_num) (by norm_num)]
    norm_num

/-- C10: the two independently coded band walks — the inline walk of
`compute_tax_liability` (factored here as `taxWalk`) and the
`progressive_tax` helper of the `estimate_tax` endpoint — agree on every
non-negative amount, so the forecast's `estimated_tax_due` and
`gross_tax_liability` come from one and the same band schedule. -/
theorem C10_band_walks_agree (c : ℚ) (i : TaxInput) (h : 0 ≤ c) :
    taxWalk c = progressive_tax c ∧
    compute_tax_liability i = progressive_tax (chargeable_income i) := by
  constructor
  · rw [progressive_tax_def, max_eq_left h]
  · rw [compute_tax_liability_eq, progressive_tax_def,
      max_eq_left (chargeable_income_nonneg i)]

theorem C10_band_walks_agree_w :
    taxWalk 1000000 = progressive_tax 1000000 ∧
    compute_tax_liability zeroInput = progressive_tax (chargeable_income zeroInput) :=
  C10_band_walks_agree 1000000 zeroInput (by norm_num)
